import Mathlib

/-!
Verification of the interactive command-selection front-end of `subspace-cli`
(`src/main.rs`). The development shallowly embeds the `Commands` enumeration,
its `Display` labels, and the `arrow_key_mode` interactive menu session: the
raw-mode lifecycle, the key-event input loop with its clamped selection
cursor, the redraw discipline, and the post-loop dispatch (including the
three farm yes/no prompts). Terminal input is modelled as a list of incoming
events; the line-buffered prompt input as a list of answer lines.
-/

/-- Key codes distinguished by the `match event.code` in `arrow_key_mode`:
`KeyCode::Up`, `KeyCode::Down`, `KeyCode::Enter`, `KeyCode::Char(c)`, and a
catch-all for every other crossterm key code (Left, Right, Esc, ...). -/
inductive KeyCode where
  | up
  | down
  | enter
  | char (c : Char)
  | other
  deriving DecidableEq

/-- The key modifiers of a crossterm key event. The source only ever tests
`event.modifiers.contains(KeyModifiers::CONTROL)`, but we carry the other
modifier bits so that independence from them is expressible. -/
structure KeyModifiers where
  ctrl : Bool
  shift : Bool
  alt : Bool
  deriving DecidableEq

/-- A crossterm `KeyEvent`: a key code plus its modifiers. -/
structure KeyEvent where
  code : KeyCode
  modifiers : KeyModifiers
  deriving DecidableEq

/-- One result of `crossterm::event::read()` inside the loop: a key event, a
non-key event (mouse, resize, ... — skipped by the `if let Event::Key`), or
an I/O error (which the `?` operator propagates out of `arrow_key_mode`). -/
inductive EventIn where
  | key (ev : KeyEvent)
  | nonKey
  | readErr
  deriving DecidableEq

/-- The mutable state of one menu session, together with instrumentation of
the observable effects: `selected` is the `selected` variable, `printCalls`
counts every invocation of `print_options` (the initial render included),
and `rawEnabled` / `enableCount` / `disableCount` track the raw-mode
lifecycle (`enable_raw_mode` / `disable_raw_mode` calls). -/
structure LoopState where
  selected : Nat
  printCalls : Nat
  rawEnabled : Bool
  enableCount : Nat
  disableCount : Nat
  deriving DecidableEq

/-- Result of processing one key event in the loop body: keep looping,
`break` out of the loop (Enter), or `return Ok(())` (the Ctrl-C arm). -/
inductive StepResult where
  | cont (s : LoopState)
  | brk (s : LoopState)
  | cancel (s : LoopState)
  deriving DecidableEq

/-- The state carried by a `StepResult`. -/
def StepResult.state : StepResult → LoopState
  | .cont s => s
  | .brk s => s
  | .cancel s => s

/-- The body of the `match event.code` in `arrow_key_mode` (src/main.rs
lines 127-151), arm for arm, in source order:
`Up | Char('k')` decrements `selected` and redraws when `selected > 0`;
`Down | Char('j')` increments and redraws when `selected < len - 1`;
`Enter` breaks; `Char('c')` guarded by the CONTROL modifier returns;
everything else is ignored. -/
def stepKey (len : Nat) (s : LoopState) (ev : KeyEvent) : StepResult :=
  if ev.code = KeyCode.up ∨ ev.code = KeyCode.char 'k' then
    if s.selected > 0 then
      StepResult.cont { s with selected := s.selected - 1, printCalls := s.printCalls + 1 }
    else
      StepResult.cont s
  else if ev.code = KeyCode.down ∨ ev.code = KeyCode.char 'j' then
    if s.selected < len - 1 then
      StepResult.cont { s with selected := s.selected + 1, printCalls := s.printCalls + 1 }
    else
      StepResult.cont s
  else if ev.code = KeyCode.enter then
    StepResult.brk s
  else if ev.code = KeyCode.char 'c' ∧ ev.modifiers.ctrl = true then
    StepResult.cancel s
  else
    StepResult.cont s

/-- How the input loop of `arrow_key_mode` ends on a given event list:
still waiting for input (`blocked`), a read error propagated by `?`
(`err`), the Ctrl-C `return Ok(())` (`cancelled`), or the Enter `break`
(`entered`). In each case the `LoopState` at that moment is recorded. -/
inductive LoopOutcome where
  | blocked (s : LoopState)
  | err (s : LoopState)
  | cancelled (s : LoopState)
  | entered (s : LoopState)
  deriving DecidableEq

/-- The state carried by a `LoopOutcome`. -/
def LoopOutcome.state : LoopOutcome → LoopState
  | .blocked s => s
  | .err s => s
  | .cancelled s => s
  | .entered s => s

/-- The `loop` of `arrow_key_mode` (src/main.rs lines 125-153) run over a
list of pending terminal events; an empty list means the blocking
`event::read()` is still waiting. -/
def runLoop (len : Nat) (s : LoopState) : List EventIn → LoopOutcome
  | [] => LoopOutcome.blocked s
  | EventIn.readErr :: _ => LoopOutcome.err s
  | EventIn.nonKey :: rest => runLoop len s rest
  | EventIn.key ev :: rest =>
    match stepKey len s ev with
    | StepResult.cont s2 => runLoop len s2 rest
    | StepResult.brk s2 => LoopOutcome.entered s2
    | StepResult.cancel s2 => LoopOutcome.cancelled s2

/-- The `Commands` enum of the CLI (src/main.rs lines 54-78). Field-bearing
variants carry their flags. -/
inductive Commands where
  | Init
  | Farm (verbose : Bool) (executor : Bool) (no_rotation : Bool)
  | Wipe (farmer : Bool) (node : Bool)
  | Info
  | OpenLogs
  deriving DecidableEq

/-- The `Display` impl for `Commands` (src/main.rs lines 224-234): the
stable human-readable label of each variant, ignoring its fields. -/
def Commands.label : Commands → String
  | .Farm _ _ _ => "farm"
  | .Wipe _ _ => "wipe"
  | .Info => "info"
  | .Init => "init"
  | .OpenLogs => "open logs directory"

/-- `Commands::iter()` as derived by `EnumIter` (strum): the variants in
declaration order, field-bearing variants with defaulted (false) fields. -/
def commandsIter : List Commands :=
  [Commands.Init, Commands.Farm false false false, Commands.Wipe false false,
   Commands.Info, Commands.OpenLogs]

/-- The `options` vector of `arrow_key_mode` (src/main.rs line 111):
`Commands::iter().map(|command| command.to_string())`. It is built once at
session start and never written again (in the embedding it is a constant). -/
def menuOptions : List String := commandsIter.map Commands.label

/-- The external action dispatched at the end of a session with the flags it
receives: `init()`, `farm(verbose, executor, no_rotation)`,
`wipe_config(farmer, node)`, `info()`, `open_log_dir()`. -/
inductive MenuAction where
  | init
  | farm (verbose : Bool) (executor : Bool) (no_rotation : Bool)
  | wipe (farmer : Bool) (node : Bool)
  | info
  | openLogs
  deriving DecidableEq

/-- Outcome of the post-loop `match selected` (src/main.rs lines 160-191):
an action is invoked, a yes/no prompt failed (the `.context("prompt
failed")?` path), or the `unreachable!` catch-all arm is hit. -/
inductive DispatchOutcome where
  | action (a : MenuAction)
  | promptError
  | unreachableHit
  deriving DecidableEq

/-- Whether a dispatch outcome is what the `farm` arm (index 1) can produce:
either a `farm` action with some flags, or a failed yes/no prompt. -/
def DispatchOutcome.isFarmOrPromptError : DispatchOutcome → Bool
  | .promptError => true
  | .action (MenuAction.farm _ _ _) => true
  | _ => false

/-- Modelled from the spec: the yes/no answer parser that `main.rs` imports
from the `utils` module, which is not part of the provided sources. Per the
spec it performs "strict yes/no parsing": a yes answer parses to true, a no
answer to false, and anything else "fails the whole resolution". -/
def yes_or_no_parse (line : String) : Option Bool :=
  if line = "y" ∨ line = "yes" then some true
  else if line = "n" ∨ line = "no" then some false
  else none

/-- Modelled from the spec: `get_user_input` lives in the `utils` module,
which is not part of the provided sources. Per the spec it is a
"line-buffered prompt": it displays `prompt`, reads one line from the
pending input, and applies the parser; a parse failure (or exhausted input)
is an error. On success it returns the parsed value and the remaining
input lines. -/
def get_user_input (prompt : String) (stdin : List String) :
    Option (Bool × List String) :=
  match stdin with
  | [] => none
  | line :: rest =>
    match yes_or_no_parse line with
    | some b => some (b, rest)
    | none => none

/-- The first farm prompt string (src/main.rs line 165). -/
def farmPrompt1 : String := "Do you want to initialize farmer in verbose mode? [y/n]: "

/-- The second farm prompt string (src/main.rs line 169). -/
def farmPrompt2 : String := "Do you want to be an executor? [y/n]: "

/-- The third farm prompt string (src/main.rs line 173). -/
def farmPrompt3 : String := "Do you want to disable rotation for logs? [y/n]: "

/-- The post-loop `match selected` of `arrow_key_mode` (src/main.rs lines
160-191). Returns the prompts issued (in order) and the outcome. Index 1
(`farm`) issues its three yes/no prompts sequentially, stopping at the
first failure; every other in-range index issues none; out-of-range hits
the `unreachable!("this number must stay in [0-4]")` arm. -/
def dispatchSelected (selected : Nat) (stdin : List String) :
    List String × DispatchOutcome :=
  match selected with
  | 0 => ([], DispatchOutcome.action MenuAction.init)
  | 1 =>
    match get_user_input farmPrompt1 stdin with
    | none => ([farmPrompt1], DispatchOutcome.promptError)
    | some (verbose, rest1) =>
      match get_user_input farmPrompt2 rest1 with
      | none => ([farmPrompt1, farmPrompt2], DispatchOutcome.promptError)
      | some (executor, rest2) =>
        match get_user_input farmPrompt3 rest2 with
        | none => ([farmPrompt1, farmPrompt2, farmPrompt3], DispatchOutcome.promptError)
        | some (no_rotation, _) =>
          ([farmPrompt1, farmPrompt2, farmPrompt3],
           DispatchOutcome.action (MenuAction.farm verbose executor no_rotation))
  | 2 => ([], DispatchOutcome.action (MenuAction.wipe false false))
  | 3 => ([], DispatchOutcome.action MenuAction.info)
  | 4 => ([], DispatchOutcome.action MenuAction.openLogs)
  | _ => ([], DispatchOutcome.unreachableHit)

/-- Overall result of one `arrow_key_mode` session. `done` carries the
issued prompts and the dispatched action; `resolutionFailed` is a failed
yes/no prompt; `cancelled` is the Ctrl-C `return Ok(())`; `readError` is a
propagated terminal I/O error; `pending` means the event list ran out while
the loop was still blocked on `event::read()`; `panicked` is the
`unreachable!` arm. Each carries the session state at that moment. -/
inductive SessionResult where
  | done (final : LoopState) (prompts : List String) (a : MenuAction)
  | resolutionFailed (final : LoopState) (prompts : List String)
  | cancelled (final : LoopState)
  | readError (final : LoopState)
  | pending (final : LoopState)
  | panicked (final : LoopState)
  deriving DecidableEq

/-- The session state carried by a `SessionResult`. -/
def SessionResult.finalState : SessionResult → LoopState
  | .done s _ _ => s
  | .resolutionFailed s _ => s
  | .cancelled s => s
  | .readError s => s
  | .pending s => s
  | .panicked s => s

/-- The action dispatched by a session, if any. -/
def SessionResult.dispatchedAction : SessionResult → Option MenuAction
  | .done _ _ a => some a
  | _ => none

/-- The yes/no prompts a session issued. -/
def SessionResult.sessionPrompts : SessionResult → List String
  | .done _ ps _ => ps
  | .resolutionFailed _ ps => ps
  | _ => []

/-- Whether the session hit the `unreachable!` arm. -/
def SessionResult.isPanicked : SessionResult → Bool
  | .panicked _ => true
  | _ => false

/-- Whether the session ended on the Ctrl-C `return Ok(())` path. -/
def SessionResult.isCancelled : SessionResult → Bool
  | .cancelled _ => true
  | _ => false

/-- Whether the session failed on a yes/no prompt. -/
def SessionResult.isResolutionFailed : SessionResult → Bool
  | .resolutionFailed _ _ => true
  | _ => false

/-- The process exit code determined by the session result, when the core
itself determines it: `main` returns the `Result` of `arrow_key_mode`, so
the Ctrl-C `Ok(())` exits 0, a propagated prompt or terminal error exits
non-zero (1), and a panic aborts with code 101. After a successful dispatch
(`done`) the exit code depends on the external action, and a `pending`
session has not returned, so neither determines a code here. -/
def SessionResult.exitCode : SessionResult → Option Nat
  | .done _ _ _ => none
  | .resolutionFailed _ _ => some 1
  | .cancelled _ => some 0
  | .readError _ => some 1
  | .pending _ => none
  | .panicked _ => some 101

/-- The session state right after `enable_raw_mode()?` (src/main.rs line
119) and the initial `print_options` call (line 122): cursor at index 0,
one render done, raw mode acquired once. -/
def startState : LoopState :=
  { selected := 0, printCalls := 1, rawEnabled := true,
    enableCount := 1, disableCount := 0 }

/-- The whole of `arrow_key_mode` (src/main.rs lines 107-194) as a function
of the pending terminal events and the pending prompt-answer lines: enable
raw mode, render once, run the input loop, and — only on the Enter/`break`
path — disable raw mode and dispatch on `selected`. The Ctrl-C arm and the
`?` on `event::read()` leave the loop without reaching `disable_raw_mode`,
exactly as the source does. -/
def arrow_key_mode (events : List EventIn) (stdin : List String) : SessionResult :=
  match runLoop menuOptions.length startState events with
  | LoopOutcome.blocked s => SessionResult.pending s
  | LoopOutcome.err s => SessionResult.readError s
  | LoopOutcome.cancelled s => SessionResult.cancelled s
  | LoopOutcome.entered s =>
    let s2 : LoopState :=
      { s with rawEnabled := false, disableCount := s.disableCount + 1 }
    match dispatchSelected s.selected stdin with
    | (ps, DispatchOutcome.action a) => SessionResult.done s2 ps a
    | (ps, DispatchOutcome.promptError) => SessionResult.resolutionFailed s2 ps
    | (_, DispatchOutcome.unreachableHit) => SessionResult.panicked s2

/-- Modifier-free key press. -/
def noMods : KeyModifiers := { ctrl := false, shift := false, alt := false }

/-- A plain Down-arrow key event. -/
def keyDown : EventIn := EventIn.key { code := KeyCode.down, modifiers := noMods }

/-- A plain Up-arrow key event. -/
def keyUp : EventIn := EventIn.key { code := KeyCode.up, modifiers := noMods }

/-- A plain Enter key event. -/
def keyEnter : EventIn := EventIn.key { code := KeyCode.enter, modifiers := noMods }

/-- The interrupt key chord: Ctrl-C. -/
def ctrlC : EventIn :=
  EventIn.key { code := KeyCode.char 'c',
                modifiers := { ctrl := true, shift := false, alt := false } }

example : menuOptions = ["init", "farm", "wipe", "info", "open logs directory"] := by rfl

example :
    arrow_key_mode [keyDown, keyDown, keyEnter] []
      = SessionResult.done
          { selected := 2, printCalls := 3, rawEnabled := false,
            enableCount := 1, disableCount := 1 }
          [] (MenuAction.wipe false false) := by rfl

example :
    arrow_key_mode [ctrlC] []
      = SessionResult.cancelled startState := by rfl

example :
    arrow_key_mode [keyDown, keyEnter] ["y", "n", "y"]
      = SessionResult.done
          { selected := 1, printCalls := 2, rawEnabled := false,
            enableCount := 1, disableCount := 1 }
          [farmPrompt1, farmPrompt2, farmPrompt3] (MenuAction.farm true false true) := by rfl

/-- Helper: one key event keeps `selected` below `len` (the loop body only
moves within the guards `selected > 0` and `selected < len - 1`). -/
theorem stepKey_state_selected_lt (len : Nat) (s : LoopState) (ev : KeyEvent)
    (h : s.selected < len) : ((stepKey len s ev).state).selected < len := by
  unfold stepKey
  split_ifs <;> simp [StepResult.state] <;> omega

/-- Helper: the input loop keeps `selected` below `len` on every outcome. -/
theorem runLoop_selected_lt (len : Nat) (events : List EventIn) (s : LoopState)
    (h : s.selected < len) : ((runLoop len s events).state).selected < len := by
  induction events generalizing s with
  | nil => simpa [runLoop, LoopOutcome.state] using h
  | cons e rest ih =>
    cases e with
    | readErr => simpa [runLoop, LoopOutcome.state] using h
    | nonKey => simpa [runLoop] using ih s h
    | key ev =>
      have h2 := stepKey_state_selected_lt len s ev h
      cases hstep : stepKey len s ev with
      | cont s2 =>
        rw [hstep] at h2
        simpa [runLoop, hstep] using ih s2 h2
      | brk s2 =>
        rw [hstep] at h2
        simpa [runLoop, hstep, LoopOutcome.state] using h2
      | cancel s2 =>
        rw [hstep] at h2
        simpa [runLoop, hstep, LoopOutcome.state] using h2

/-- Helper: events consumed while the loop is still blocked compose — if a
prefix leaves the loop blocked in state `s2`, appending more events behaves
as running them from `s2`. -/
theorem runLoop_append_blocked (len : Nat) (xs : List EventIn) (s s2 : LoopState)
    (h : runLoop len s xs = LoopOutcome.blocked s2) (ys : List EventIn) :
    runLoop len s (xs ++ ys) = runLoop len s2 ys := by
  induction xs generalizing s with
  | nil =>
    simp only [runLoop] at h
    cases h
    rfl
  | cons e rest ih =>
    cases e with
    | readErr => simp [runLoop] at h
    | nonKey =>
      simp only [runLoop] at h ⊢
      exact ih s h
    | key ev =>
      simp only [runLoop] at h ⊢
      cases hstep : stepKey len s ev with
      | cont s3 =>
        rw [hstep] at h
        exact ih s3 h
      | brk s3 =>
        rw [hstep] at h
        exact LoopOutcome.noConfusion h
      | cancel s3 =>
        rw [hstep] at h
        exact LoopOutcome.noConfusion h

/-- C1: the claim that raw mode is disabled exactly once on every exit path
FAILS on the code — `arrow_key_mode` returns from the Ctrl-C arm, and
propagates a read error with `?`, without ever reaching the single
`disable_raw_mode` call after the loop; only the Enter path disables raw
mode. This theorem evaluates the session at the failing inputs: after a
Ctrl-C (or a read error) as first event, the session has enabled raw mode
once and disabled it zero times, so control returns with the terminal still
in raw mode. -/
theorem rawmode_not_released_on_interrupt_or_error :
    (arrow_key_mode [ctrlC] []).isCancelled = true
    ∧ ((arrow_key_mode [ctrlC] []).finalState).enableCount = 1
    ∧ ((arrow_key_mode [ctrlC] []).finalState).disableCount = 0
    ∧ ((arrow_key_mode [ctrlC] []).finalState).rawEnabled = true
    ∧ ((arrow_key_mode [EventIn.readErr] []).finalState).enableCount = 1
    ∧ ((arrow_key_mode [EventIn.readErr] []).finalState).disableCount = 0
    ∧ ((arrow_key_mode [EventIn.readErr] []).finalState).rawEnabled = true
    ∧ ((arrow_key_mode [keyEnter] []).finalState).enableCount = 1
    ∧ ((arrow_key_mode [keyEnter] []).finalState).disableCount = 1
    ∧ ((arrow_key_mode [keyEnter] []).finalState).rawEnabled = false :=
  ⟨rfl, rfl, rfl, rfl, rfl, rfl, rfl, rfl, rfl, rfl⟩

/-- C2: navigation is clamped: a key event never moves `selected` out of
`[0, len-1]`; from the initial state the whole loop keeps `selected` in
range; an up (or `k`) event at index 0 and a down (or `j`) event at
index `len-1` leave the state unchanged (no wraparound); and five down
events over the five options end at index 4, not 0. -/
theorem nav_selected_clamped :
    (∀ (len : Nat) (s : LoopState) (ev : KeyEvent),
        s.selected < len → ((stepKey len s ev).state).selected < len)
    ∧ (∀ (events : List EventIn),
        ((runLoop menuOptions.length startState events).state).selected
          < menuOptions.length)
    ∧ (∀ (len : Nat) (s : LoopState) (ev : KeyEvent),
        (ev.code = KeyCode.up ∨ ev.code = KeyCode.char 'k') → s.selected = 0 →
        stepKey len s ev = StepResult.cont s)
    ∧ (∀ (len : Nat) (s : LoopState) (ev : KeyEvent),
        (ev.code = KeyCode.down ∨ ev.code = KeyCode.char 'j') →
        s.selected = len - 1 →
        stepKey len s ev = StepResult.cont s)
    ∧ ((runLoop menuOptions.length startState
          [keyDown, keyDown, keyDown, keyDown, keyDown]).state).selected = 4 := by
  refine ⟨fun len s ev h => stepKey_state_selected_lt len s ev h,
    fun events => runLoop_selected_lt _ events startState (by decide),
    ?_, ?_, by rfl⟩
  · intro len s ev h h0
    unfold stepKey
    rw [if_pos h, if_neg (by omega)]
  · intro len s ev h h0
    rcases h with h | h <;>
      · unfold stepKey
        rw [if_neg (by simp [h]), if_pos (by simp [h]), if_neg (by omega)]

/-- Witness for `nav_selected_clamped` at concrete inputs: an up event in
the start state (index 0) keeps the index below 5 and leaves the state
unchanged; a down event at index 4 of 5 leaves the state unchanged. -/
theorem nav_selected_clamped_witness :
    ((stepKey 5 startState { code := KeyCode.up, modifiers := noMods }).state).selected < 5
    ∧ stepKey 5 startState { code := KeyCode.up, modifiers := noMods }
        = StepResult.cont startState
    ∧ stepKey 5 { startState with selected := 4 }
          { code := KeyCode.down, modifiers := noMods }
        = StepResult.cont { startState with selected := 4 } :=
  ⟨nav_selected_clamped.1 5 startState _ (by decide),
   nav_selected_clamped.2.2.1 5 startState _ (Or.inl rfl) rfl,
   nav_selected_clamped.2.2.2.1 5 _ _ (Or.inl rfl) (by decide)⟩

/-- C3: if the interrupt chord (Ctrl-C) arrives while the loop is still
waiting for input (the `Rendering` state), the session ends on the
`return Ok(())` path: no action is dispatched and the process exit code
is 0 — cancellation is a successful termination. -/
theorem interrupt_cancels_with_exit_zero (pre : List EventIn) (stdin : List String)
    (s : LoopState)
    (h : runLoop menuOptions.length startState pre = LoopOutcome.blocked s) :
    arrow_key_mode (pre ++ [ctrlC]) stdin = SessionResult.cancelled s
    ∧ (arrow_key_mode (pre ++ [ctrlC]) stdin).dispatchedAction = none
    ∧ (arrow_key_mode (pre ++ [ctrlC]) stdin).exitCode = some 0 := by
  have hrun : runLoop menuOptions.length startState (pre ++ [ctrlC])
      = LoopOutcome.cancelled s := by
    rw [runLoop_append_blocked _ _ _ _ h]
    rfl
  have hmain : arrow_key_mode (pre ++ [ctrlC]) stdin = SessionResult.cancelled s := by
    unfold arrow_key_mode
    rw [hrun]
  exact ⟨hmain, by rw [hmain]; rfl, by rw [hmain]; rfl⟩

/-- Witness for `interrupt_cancels_with_exit_zero`: Ctrl-C as the very
first event cancels the fresh session with exit code 0. -/
theorem interrupt_cancels_with_exit_zero_witness :
    arrow_key_mode ([] ++ [ctrlC]) [] = SessionResult.cancelled startState
    ∧ (arrow_key_mode ([] ++ [ctrlC]) []).dispatchedAction = none
    ∧ (arrow_key_mode ([] ++ [ctrlC]) []).exitCode = some 0 :=
  interrupt_cancels_with_exit_zero [] [] startState rfl

/-- C4: a session that resolves to index 1 (`farm`) issues exactly the
three yes/no prompts, in the order verbose mode, executor role, disable
log rotation; with answers "y", "n", "y" the farm action is dispatched
with `verbose = true`, `executor = false`, `no_rotation = true`. -/
theorem farm_prompt_order_and_flags :
    ((arrow_key_mode [keyDown, keyEnter] ["y", "n", "y"]).finalState).selected = 1
    ∧ (arrow_key_mode [keyDown, keyEnter] ["y", "n", "y"]).sessionPrompts
        = [farmPrompt1, farmPrompt2, farmPrompt3]
    ∧ (arrow_key_mode [keyDown, keyEnter] ["y", "n", "y"]).dispatchedAction
        = some (MenuAction.farm true false true)
    ∧ farmPrompt1 = "Do you want to initialize farmer in verbose mode? [y/n]: "
    ∧ farmPrompt2 = "Do you want to be an executor? [y/n]: "
    ∧ farmPrompt3 = "Do you want to disable rotation for logs? [y/n]: " :=
  ⟨rfl, rfl, rfl, rfl, rfl, rfl⟩

/-- C5: an answer that is neither yes nor no fails a prompt, and a session
whose farm resolution receives such an answer — at any of the three
prompts — ends as a failed resolution with no action dispatched. -/
theorem malformed_answer_fails_resolution :
    yes_or_no_parse "maybe" = none
    ∧ (∀ (line : String) (rest : List String) (prompt : String),
        yes_or_no_parse line = none → get_user_input prompt (line :: rest) = none)
    ∧ (arrow_key_mode [keyDown, keyEnter] ["maybe"]).isResolutionFailed = true
    ∧ (arrow_key_mode [keyDown, keyEnter] ["maybe"]).dispatchedAction = none
    ∧ (arrow_key_mode [keyDown, keyEnter] ["y", "maybe", "y"]).isResolutionFailed = true
    ∧ (arrow_key_mode [keyDown, keyEnter] ["y", "maybe", "y"]).dispatchedAction = none
    ∧ (arrow_key_mode [keyDown, keyEnter] ["y", "n", "maybe"]).isResolutionFailed = true
    ∧ (arrow_key_mode [keyDown, keyEnter] ["y", "n", "maybe"]).dispatchedAction = none := by
  refine ⟨rfl, ?_, rfl, rfl, rfl, rfl, rfl, rfl⟩
  intro line rest prompt h
  simp only [get_user_input]
  rw [h]

/-- Witness for `malformed_answer_fails_resolution`: the prompt-failure
conjunct applied to the concrete malformed line "maybe". -/
theorem malformed_answer_fails_resolution_witness :
    get_user_input farmPrompt1 ["maybe"] = none :=
  malformed_answer_fails_resolution.2.1 "maybe" [] farmPrompt1 rfl

/-- C6: with the five options, the input sequence [down, down, enter]
resolves to index 2 (`wipe`); no detail prompt is issued regardless of the
pending answer lines, and the wipe action is dispatched with
`farmer = false`, `node = false`. -/
theorem wipe_selection_no_prompts (stdin : List String) :
    ((arrow_key_mode [keyDown, keyDown, keyEnter] stdin).finalState).selected = 2
    ∧ (arrow_key_mode [keyDown, keyDown, keyEnter] stdin).sessionPrompts = []
    ∧ (arrow_key_mode [keyDown, keyDown, keyEnter] stdin).dispatchedAction
        = some (MenuAction.wipe false false) :=
  ⟨rfl, rfl, rfl⟩

/-- C7: a key event increments the `print_options` call count exactly when
it changes `selected` (clamped no-ops, Enter, Ctrl-C and ignored keys
redraw nothing), and a non-key event is skipped without any effect. -/
theorem redraw_iff_index_change :
    (∀ (len : Nat) (s : LoopState) (ev : KeyEvent),
        ((stepKey len s ev).state).printCalls
          = s.printCalls
            + (if ((stepKey len s ev).state).selected = s.selected then 0 else 1))
    ∧ (∀ (len : Nat) (s : LoopState) (rest : List EventIn),
        runLoop len s (EventIn.nonKey :: rest) = runLoop len s rest) := by
  constructor
  · intro len s ev
    unfold stepKey
    split_ifs <;> simp only [StepResult.state] at * <;>
      first
      | omega
      | exact absurd trivial (by assumption)
  · intro len s rest
    rfl

/-- C8: the option list is `Commands::iter().map(to_string)`: the variants
in declaration order `Init, Farm, Wipe, Info, OpenLogs`, yielding exactly
the five labels "init", "farm", "wipe", "info", "open logs directory"; in
the embedding it is a constant, so it cannot change during a session. -/
theorem menu_options_fixed :
    menuOptions = commandsIter.map Commands.label
    ∧ commandsIter = [Commands.Init, Commands.Farm false false false,
        Commands.Wipe false false, Commands.Info, Commands.OpenLogs]
    ∧ menuOptions = ["init", "farm", "wipe", "info", "open logs directory"]
    ∧ menuOptions.length = 5 :=
  ⟨rfl, rfl, rfl, rfl⟩

/-- Helper: the `farm` arm of the dispatch produces either a prompt failure
or a farm action with some flags. -/
theorem dispatchSelected_one_snd (stdin : List String) :
    (dispatchSelected 1 stdin).2 = DispatchOutcome.promptError
    ∨ ∃ v e nr, (dispatchSelected 1 stdin).2
        = DispatchOutcome.action (MenuAction.farm v e nr) := by
  simp only [dispatchSelected]
  cases h1 : get_user_input farmPrompt1 stdin with
  | none => exact Or.inl rfl
  | some p =>
    obtain ⟨v, r1⟩ := p
    dsimp only
    cases h2 : get_user_input farmPrompt2 r1 with
    | none => exact Or.inl rfl
    | some q =>
      obtain ⟨e, r2⟩ := q
      dsimp only
      cases h3 : get_user_input farmPrompt3 r2 with
      | none => exact Or.inl rfl
      | some w =>
        obtain ⟨nr, r3⟩ := w
        exact Or.inr ⟨v, e, nr, rfl⟩

/-- Helper: for an in-range index, the post-loop dispatch never reaches the
`unreachable!` arm. -/
theorem dispatchSelected_ne_unreachable (n : Nat) (hn : n < 5) (stdin : List String) :
    (dispatchSelected n stdin).2 ≠ DispatchOutcome.unreachableHit := by
  have h05 : n = 0 ∨ n = 1 ∨ n = 2 ∨ n = 3 ∨ n = 4 := by omega
  rcases h05 with h | h | h | h | h <;> subst h
  · simp [dispatchSelected]
  · rcases dispatchSelected_one_snd stdin with h | ⟨v, e, nr, h⟩ <;> rw [h] <;> simp
  · simp [dispatchSelected]
  · simp [dispatchSelected]
  · simp [dispatchSelected]

/-- C9: whenever the loop exits via Enter, `selected` is still in `[0, 4]`,
so no session ever reaches the `unreachable!("this number must stay in
[0-4]")` arm; and the dispatch maps each in-range index to exactly one
action in enumeration order (index 1 issuing the farm prompts first). -/
theorem dispatch_never_unreachable :
    (∀ (events : List EventIn) (stdin : List String),
        (arrow_key_mode events stdin).isPanicked = false)
    ∧ (∀ stdin, (dispatchSelected 0 stdin).2 = DispatchOutcome.action MenuAction.init)
    ∧ (∀ stdin, ((dispatchSelected 1 stdin).2).isFarmOrPromptError = true)
    ∧ (∀ stdin, (dispatchSelected 2 stdin).2
        = DispatchOutcome.action (MenuAction.wipe false false))
    ∧ (∀ stdin, (dispatchSelected 3 stdin).2 = DispatchOutcome.action MenuAction.info)
    ∧ (∀ stdin, (dispatchSelected 4 stdin).2
        = DispatchOutcome.action MenuAction.openLogs) := by
  refine ⟨?_, fun _ => rfl, ?_, fun _ => rfl, fun _ => rfl, fun _ => rfl⟩
  · intro events stdin
    have h5 := runLoop_selected_lt menuOptions.length events startState (by decide)
    unfold arrow_key_mode
    cases hrun : runLoop menuOptions.length startState events with
    | blocked s => rfl
    | err s => rfl
    | cancelled s => rfl
    | entered s =>
      rw [hrun] at h5
      simp only [LoopOutcome.state] at h5
      dsimp only
      rcases hd : dispatchSelected s.selected stdin with ⟨ps, out⟩
      cases out with
      | action a => rfl
      | promptError => rfl
      | unreachableHit =>
        exfalso
        have hne := dispatchSelected_ne_unreachable s.selected h5 stdin
        rw [hd] at hne
        exact hne rfl
  · intro stdin
    rcases dispatchSelected_one_snd stdin with h | ⟨v, e, nr, h⟩ <;> rw [h] <;> rfl

/-- C10: the navigation and Enter arms match on the key code alone — any
modifier combination gives the same result for every code other than
`Char('c')`, and `k`/`j` behave exactly like Up/Down under any modifiers —
while `Char('c')` alone is guarded on the CONTROL modifier: with it the
session is cancelled, without it the key is ignored. -/
theorem nav_keys_ignore_modifiers :
    (∀ (len : Nat) (s : LoopState) (c : KeyCode) (m m2 : KeyModifiers),
        c ≠ KeyCode.char 'c' →
        stepKey len s { code := c, modifiers := m }
          = stepKey len s { code := c, modifiers := m2 })
    ∧ (∀ (len : Nat) (s : LoopState) (m : KeyModifiers),
        stepKey len s { code := KeyCode.char 'k', modifiers := m }
          = stepKey len s { code := KeyCode.up, modifiers := m })
    ∧ (∀ (len : Nat) (s : LoopState) (m : KeyModifiers),
        stepKey len s { code := KeyCode.char 'j', modifiers := m }
          = stepKey len s { code := KeyCode.down, modifiers := m })
    ∧ (∀ (len : Nat) (s : LoopState) (m : KeyModifiers), m.ctrl = true →
        stepKey len s { code := KeyCode.char 'c', modifiers := m }
          = StepResult.cancel s)
    ∧ (∀ (len : Nat) (s : LoopState) (m : KeyModifiers), m.ctrl = false →
        stepKey len s { code := KeyCode.char 'c', modifiers := m }
          = StepResult.cont s) := by
  refine ⟨?_, ?_, ?_, ?_, ?_⟩
  · intro len s c m m2 hc
    unfold stepKey
    split_ifs <;> simp_all
  · intro len s m
    simp [stepKey]
  · intro len s m
    simp [stepKey]
  · intro len s m hm
    simp [stepKey, hm]
  · intro len s m hm
    simp [stepKey, hm]

/-- Witness for `nav_keys_ignore_modifiers`: Ctrl-k navigates exactly like
plain k; Ctrl-C cancels; plain c is ignored. -/
theorem nav_keys_ignore_modifiers_witness :
    stepKey 5 startState
        { code := KeyCode.char 'k',
          modifiers := { ctrl := true, shift := false, alt := false } }
      = stepKey 5 startState { code := KeyCode.char 'k', modifiers := noMods }
    ∧ stepKey 5 startState
        { code := KeyCode.char 'c',
          modifiers := { ctrl := true, shift := false, alt := false } }
      = StepResult.cancel startState
    ∧ stepKey 5 startState { code := KeyCode.char 'c', modifiers := noMods }
      = StepResult.cont startState :=
  ⟨nav_keys_ignore_modifiers.1 5 startState (KeyCode.char 'k') _ noMods (by decide),
   nav_keys_ignore_modifiers.2.2.2.1 5 startState _ rfl,
   nav_keys_ignore_modifiers.2.2.2.2 5 startState noMods rfl⟩
